import Mathlib

/-!
Verification of the Slack influencer-bot queue pipeline (src/bot.py) against
its specification. The Python functions are shallowly embedded as executable
Lean definitions: strings are `String`/`List Char`, the spreadsheet read and
the Slack identity lookup become explicit `Except` parameters (the only way
those calls can influence the functions is through their result or failure),
and `datetime.now()` becomes an explicit `PyDateTime` parameter.
-/

namespace SlackBot

/-! ## Python string primitives used by bot.py -/

/-- Python `needle in hay` substring test on character lists: true when
`needle` is a prefix of some suffix of `hay`. -/
def pyContains : List Char → List Char → Bool
  | hay, needle =>
    if needle.isPrefixOf hay then true
    else
      match hay with
      | [] => false
      | _ :: t => pyContains t needle

/-- Python `s.startswith(pre)`. -/
def pyStartsWith (s pre : String) : Bool :=
  pre.data.isPrefixOf s.data

/-- ASCII lowercase table: the `str.lower` mapping restricted to the ASCII
letters (the only characters the bot's domain matching can be sensitive to). -/
def lowerTable : List (Char × Char) :=
  [('A', 'a'), ('B', 'b'), ('C', 'c'), ('D', 'd'), ('E', 'e'), ('F', 'f'),
   ('G', 'g'), ('H', 'h'), ('I', 'i'), ('J', 'j'), ('K', 'k'), ('L', 'l'),
   ('M', 'm'), ('N', 'n'), ('O', 'o'), ('P', 'p'), ('Q', 'q'), ('R', 'r'),
   ('S', 's'), ('T', 't'), ('U', 'u'), ('V', 'v'), ('W', 'w'), ('X', 'x'),
   ('Y', 'y'), ('Z', 'z')]

/-- Lowercase one character (ASCII model of Python `str.lower`). -/
def charLower (c : Char) : Char :=
  match lowerTable.find? (fun p => p.1 == c) with
  | some p => p.2
  | none => c

/-- Python `s.lower()` (ASCII model). -/
def strLower (s : String) : String :=
  ⟨s.data.map charLower⟩

/-! ## urllib.parse.urlparse, restricted to the fields bot.py reads
(`netloc` and `path`). Mirrors CPython `_urlsplit`: tab/newline/return
bytes are removed, a scheme (`[scheme_chars]*` before the first `:` at a
positive index) is split off, a netloc follows `//` up to the first of
`/?#` (with the unbalanced-bracket `ValueError`), and the path is what
remains before the query/fragment. -/

/-- CPython `scheme_chars`: letters, digits, `+`, `-`, `.`. -/
def schemeChar (c : Char) : Bool :=
  c.isAlpha || c.isDigit || c == '+' || c == '-' || c == '.'

/-- CPython removes ASCII tab/newline/return from the URL before parsing. -/
def removeUnsafeBytes (s : List Char) : List Char :=
  s.filter (fun c => !(c == '\t' || c == '\n' || c == '\r'))

/-- Whether the input has a URL scheme: a non-empty run of scheme characters
starting with an ASCII letter and terminated by `:` (the first `:` occurring
at a positive index, with every character before it a scheme character) —
exactly when CPython's urlparse would split off a scheme. -/
def hasScheme (s : String) : Bool :=
  decide (0 < (s.data.takeWhile (fun c => !(c == ':'))).length) &&
  decide ((s.data.takeWhile (fun c => !(c == ':'))).length < s.data.length) &&
  (s.data.headD ' ').isAlpha &&
  (s.data.takeWhile (fun c => !(c == ':'))).all schemeChar

/-- Drop the scheme and its `:` when one is present, per CPython urlparse. -/
def splitScheme (s : List Char) : List Char :=
  if 0 < (s.takeWhile (fun c => !(c == ':'))).length ∧
     (s.takeWhile (fun c => !(c == ':'))).length < s.length ∧
     (s.headD ' ').isAlpha = true ∧
     (s.takeWhile (fun c => !(c == ':'))).all schemeChar then
    s.drop ((s.takeWhile (fun c => !(c == ':'))).length + 1)
  else s

/-- Characters ending the netloc in CPython `_splitnetloc`. -/
def netlocDelim (c : Char) : Bool :=
  c == '/' || c == '?' || c == '#'

/-- `urlparse(url)` restricted to `(netloc, path)`; `Except.error` is the
`ValueError` CPython raises on an unbalanced bracket in the netloc, which
`validate_url` catches. -/
def pyUrlsplitNetlocPath (url : String) : Except String (String × String) :=
  let s := removeUnsafeBytes url.data
  let rest := splitScheme s
  if rest.take 2 = ['/', '/'] then
    let afterSlashes := rest.drop 2
    let netloc := afterSlashes.takeWhile (fun c => !(netlocDelim c))
    let after := afterSlashes.dropWhile (fun c => !(netlocDelim c))
    if (netloc.contains '[' && !(netloc.contains ']')) ||
       (netloc.contains ']' && !(netloc.contains '[')) then
      Except.error "Invalid IPv6 URL"
    else
      Except.ok (⟨netloc⟩, ⟨after.takeWhile (fun c => !(c == '?' || c == '#'))⟩)
  else
    Except.ok ("", ⟨rest.takeWhile (fun c => !(c == '?' || c == '#'))⟩)

/-! ## validate_url -/

/-- The `SUPPORTED_PLATFORMS` dict of bot.py, in insertion order (Python 3.7+
dicts iterate in insertion order). -/
def SUPPORTED_PLATFORMS : List (String × String) :=
  [("instagram.com", "Instagram"), ("tiktok.com", "TikTok"),
   ("youtube.com", "YouTube"), ("youtu.be", "YouTube")]

/-- The platform loop of `validate_url`: first entry whose domain is a
substring of the (already lowercased) host wins. -/
def classifyDomain : List (String × String) → String → Option String
  | [], _ => none
  | (d, p) :: rest, domain =>
    if pyContains domain.data d.data then some p else classifyDomain rest domain

/-- Lines 90–91 of bot.py: prefix `https://` unless the string already starts
with `http://` or `https://`. -/
def ensureScheme (url : String) : String :=
  if pyStartsWith url "http://" || pyStartsWith url "https://" then url
  else "https://" ++ url

/-- The body of `validate_url` after the scheme prefixing: parse, lowercase
the netloc, classify, and reject empty or `/` paths. -/
def validate_parsed (url : String) : Option String × String :=
  match pyUrlsplitNetlocPath url with
  | Except.error e => (none, "Invalid URL format: " ++ e)
  | Except.ok (netloc, path) =>
    match classifyDomain SUPPORTED_PLATFORMS (strLower netloc) with
    | none =>
      (none, "Unsupported platform. Please use Instagram, TikTok, or YouTube URLs.")
    | some platform =>
      if path = "" ∨ path = "/" then
        (none, "Invalid " ++ platform ++ " URL. Please provide a profile/channel URL.")
      else
        (some url, platform)

/-- `validate_url` of bot.py. -/
def validate_url (url : String) : Option String × String :=
  validate_parsed (ensureScheme url)

/-- The classification step applied to a parsed netloc (lines 94 and 97–101
of bot.py: `domain = parsed.netloc.lower()` then the platform loop). -/
def classifyNetloc (netloc : String) : Option String :=
  classifyDomain SUPPORTED_PLATFORMS (strLower netloc)

/-! ## check_duplicate_url -/

/-- `check_duplicate_url` of bot.py, with the spreadsheet read made an
explicit argument: `Except.error` is any exception from the `get` call, and
`Except.ok values` is `result.get('values', [])`. The loop is
`for row in values[1:] if len(values) > 1 else []` with the test
`len(row) > 1 and row[1] == url`. -/
def check_duplicate_url (readResult : Except String (List (List String)))
    (url : String) : Bool :=
  match readResult with
  | Except.error _ => false
  | Except.ok values =>
    (if 1 < values.length then values.drop 1 else []).any
      (fun row => decide (1 < row.length) && (row.getD 1 "" == url))

/-- A concrete queue holding the header row and one Instagram row, as in the
spec's dedup scenario. -/
def demoQueue : List (List String) :=
  [["Timestamp", "URL", "Platform", "Requester", "Status"],
   ["2024-01-01 00:00:00", "https://instagram.com/foo", "Instagram", "Kristaps", "Pending"]]

/-! ## get_user_name -/

/-- The `profile` sub-object of a Slack `users_info` payload. -/
structure SlackProfile where
  display_name : Option String

/-- The `user` object of a Slack `users_info` payload; `none` models an
absent key, `some ""` an empty string value. -/
structure SlackUser where
  real_name : Option String
  profile : Option SlackProfile
  name : Option String

/-- A Slack `users_info` result. -/
structure UsersInfoResult where
  ok : Bool
  user : SlackUser

/-- Python truthiness of a possibly-absent string: `None` and `""` are falsy. -/
def pyTruthy : Option String → Bool
  | none => false
  | some s => !(s == "")

/-- Python `a or b` over possibly-absent strings. -/
def pyOr (a b : Option String) : Option String :=
  if pyTruthy a then a else b

/-- `user.get("profile", {}).get("display_name")`. -/
def profileDisplay (u : SlackUser) : Option String :=
  match u.profile with
  | some p => p.display_name
  | none => none

/-- `get_user_name` of bot.py with the `users_info` call made an explicit
argument (`Except.error` = the call raised). The returned `Option String`
is the Python return value: `none` is Python `None`, which the function
returns when `result["ok"]` is truthy but the whole fallback chain is falsy
(the chain's last operand `user.get("name")` is returned as-is). -/
def get_user_name (lookup : Except String UsersInfoResult) : Option String :=
  match lookup with
  | Except.error _ => some "Unknown User"
  | Except.ok res =>
    if res.ok then
      pyOr res.user.real_name (pyOr (profileDisplay res.user) res.user.name)
    else some "Unknown User"

/-! ## add_to_sheet -/

/-- A local wall-clock time, the fields `datetime.now()` exposes to the
format string `"%Y-%m-%d %H:%M:%S"`. -/
structure PyDateTime where
  year : Nat
  month : Nat
  day : Nat
  hour : Nat
  minute : Nat
  second : Nat

/-- The decimal digit character of `n % 10`. -/
def digitChar (n : Nat) : Char :=
  if n % 10 = 0 then '0' else if n % 10 = 1 then '1' else if n % 10 = 2 then '2'
  else if n % 10 = 3 then '3' else if n % 10 = 4 then '4' else if n % 10 = 5 then '5'
  else if n % 10 = 6 then '6' else if n % 10 = 7 then '7' else if n % 10 = 8 then '8'
  else '9'

/-- Two-digit zero-padded decimal (strftime `%m`, `%d`, `%H`, `%M`, `%S`;
datetime guarantees these fields are below 100). -/
def pad2 (n : Nat) : List Char :=
  [digitChar (n / 10), digitChar n]

/-- Four-digit zero-padded decimal (strftime `%Y`; datetime years are
between 1 and 9999). -/
def pad4 (n : Nat) : List Char :=
  [digitChar (n / 1000), digitChar (n / 100), digitChar (n / 10), digitChar n]

/-- `datetime.strftime("%Y-%m-%d %H:%M:%S")`. -/
def strftimeTimestamp (t : PyDateTime) : String :=
  ⟨pad4 t.year ++ '-' :: pad2 t.month ++ '-' :: pad2 t.day ++ ' ' :: pad2 t.hour
    ++ ':' :: pad2 t.minute ++ ':' :: pad2 t.second⟩

/-- The `row_data` list built by `add_to_sheet` (lines 157–163 of bot.py). -/
def row_data (t : PyDateTime) (url platform user_name : String) : List String :=
  [strftimeTimestamp t, url, platform, user_name, "Pending"]

/-- The effect of `add_to_sheet`'s append on the sheet: one row added at the
end, columns A–E in the fixed order. -/
def add_to_sheet (sheet : List (List String)) (t : PyDateTime)
    (url platform user_name : String) : List (List String) :=
  sheet ++ [row_data t url platform user_name]

/-- The timestamp pattern `YYYY-MM-DD HH:MM:SS`: 19 characters, separators at
positions 4, 7, 10, 13, 16 and decimal digits everywhere else. -/
def timestampShape (s : String) : Prop :=
  s.data.length = 19 ∧
  s.data.getD 4 'x' = '-' ∧ s.data.getD 7 'x' = '-' ∧ s.data.getD 10 'x' = ' ' ∧
  s.data.getD 13 'x' = ':' ∧ s.data.getD 16 'x' = ':' ∧
  ∀ i, i < 19 → i ∉ [4, 7, 10, 13, 16] → (s.data.getD i 'x').isDigit = true

/-! ## setup_sheet_headers -/

/-- The fixed header row of bot.py. -/
def HEADERS : List String :=
  ["Timestamp", "URL", "Platform", "Requester", "Status"]

/-- Drop trailing empty cells, as the Sheets API omits them from a read. -/
def dropTrailingEmpty (r : List String) : List String :=
  (r.reverse.dropWhile (fun c => c == "")).reverse

/-- The `values` of a `get` on range `A1:E1`: the Sheets API returns no
`values` key (so bot.py sees `[]`) when the sheet is empty or row 1 has no
data in columns A–E; otherwise the one row, trailing empty cells omitted. -/
def getA1E1 (sheet : List (List String)) : List (List String) :=
  match sheet with
  | [] => []
  | r :: _ =>
    if dropTrailingEmpty (r.take 5) = [] then []
    else [dropTrailingEmpty (r.take 5)]

/-- An `update` on range `A1:E1` with one five-cell row: cells A1–E1 are
overwritten, everything else is untouched. -/
def updateA1E1 (sheet : List (List String)) (row : List String) :
    List (List String) :=
  match sheet with
  | [] => [row]
  | r :: rest => (row ++ r.drop 5) :: rest

/-- `setup_sheet_headers` of bot.py acting on the sheet state: write the
header row iff the read of `A1:E1` came back empty. (On a read failure the
function only logs, leaving the sheet unchanged.) -/
def setup_sheet_headers (sheet : List (List String)) : List (List String) :=
  if getA1E1 sheet = [] then updateA1E1 sheet HEADERS else sheet

/-! ## handle_mention -/

/-- Python `\s` (ASCII whitespace, as in the message text the bot sees). -/
def pyIsSpaceChar (c : Char) : Bool :=
  c == ' ' || c == '\t' || c == '\n' || c == '\r' || c == '\x0b' || c == '\x0c'

/-- A character matched by `[^\s<>]` in the URL regex of bot.py. -/
def urlBodyChar (c : Char) : Bool :=
  !(pyIsSpaceChar c || c == '<' || c == '>')

/-- One attempt of the regex `https?://[^\s<>]+` anchored at the head of `s`:
the matched text and the remainder, or `none`. -/
def matchUrlAt (s : List Char) : Option (List Char × List Char) :=
  if "https://".data.isPrefixOf s then
    let rest := s.drop 8
    let body := rest.takeWhile urlBodyChar
    if body = [] then none else some ("https://".data ++ body, rest.drop body.length)
  else if "http://".data.isPrefixOf s then
    let rest := s.drop 7
    let body := rest.takeWhile urlBodyChar
    if body = [] then none else some ("http://".data ++ body, rest.drop body.length)
  else none

/-- `re.findall(r'https?://[^\s<>]+', text)`: scan left to right, emit each
leftmost non-overlapping match, resume after it. The fuel starts at the text
length, which bounds the number of scan steps (every step consumes at least
one character). -/
def findallUrlsAux : Nat → List Char → List String
  | 0, _ => []
  | _, [] => []
  | fuel + 1, c :: rest =>
    match matchUrlAt (c :: rest) with
    | some (m, rest') => String.mk m :: findallUrlsAux fuel rest'
    | none => findallUrlsAux fuel rest

/-- All URL-pattern matches in the mention text, in order. -/
def findallUrls (text : String) : List String :=
  findallUrlsAux text.data.length text.data

/-- Python `url.strip('<>')`: remove leading and trailing `<`/`>`. -/
def stripAngles (s : String) : String :=
  ⟨((s.data.dropWhile (fun c => c == '<' || c == '>')).reverse.dropWhile
      (fun c => c == '<' || c == '>')).reverse⟩

/-- The collaborator calls the mention handler can make, recorded as a trace. -/
inductive BotCall where
  | validateCall (url : String)
  | duplicateCall (url : String)
  | appendCall (url : String)
deriving DecidableEq

/-- The outcomes of the external collaborators, abstracted: whether a given
URL is already queued and whether appending it succeeds. -/
structure Backend where
  isDuplicate : String → Bool
  appendSucceeds : String → Bool

/-- One iteration of the mention handler's URL loop (lines 233–256 of
bot.py): strip angle brackets, validate, check duplicates, append; yields
the success line, the error line, and the trace of collaborator calls. -/
def processOne (b : Backend) (rawUrl : String) :
    Option String × Option String × List BotCall :=
  let url := stripAngles rawUrl
  match validate_url url with
  | (none, msg) =>
    (none, some ("• " ++ url ++ ": " ++ msg), [BotCall.validateCall url])
  | (some v, platform) =>
    if b.isDuplicate v then
      (none, some ("• " ++ url ++ ": Already exists in database"),
        [BotCall.validateCall url, BotCall.duplicateCall v])
    else if b.appendSucceeds v then
      (some ("• " ++ platform ++ ": " ++ v), none,
        [BotCall.validateCall url, BotCall.duplicateCall v, BotCall.appendCall v])
    else
      (none, some ("• " ++ url ++ ": Failed to add to database"),
        [BotCall.validateCall url, BotCall.duplicateCall v, BotCall.appendCall v])

/-- The whole URL loop: accumulated success lines, error lines and call
trace, in submission order. -/
def processUrls (b : Backend) : List String → List String × List String × List BotCall
  | [] => ([], [], [])
  | u :: rest =>
    match processOne b u, processUrls b rest with
    | (succ, err, calls), (succs, errs, callsRest) =>
      (succ.toList ++ succs, err.toList ++ errs, calls ++ callsRest)

/-- The usage-hint reply of lines 226–227 of bot.py. -/
def usageHint (user : String) : String :=
  "<@" ++ user ++ "> Please include a social media URL in your message.\n" ++
  "Supported platforms: Instagram, TikTok, YouTube"

/-- Python `"\n".join`. -/
def joinLines : List String → String
  | [] => ""
  | [s] => s
  | s :: rest => s ++ "\n" ++ joinLines rest

/-- The composed reply of lines 259–268 of bot.py. -/
def mentionResponse (user : String) (processed errors : List String) : String :=
  let r0 := "<@" ++ user ++ "> URL Processing Results:\n\n"
  let r1 := if processed = [] then r0
    else r0 ++ "✅ *Successfully Added:*\n" ++ joinLines processed ++ "\n\n"
  let r2 := if errors = [] then r1
    else r1 ++ "❌ *Errors:*\n" ++ joinLines errors ++ "\n\n"
  if processed = [] then r2
  else r2 ++ "_URLs will be scraped in the next batch run (every ~6 hours)_"

/-- `handle_mention` of bot.py: extract URLs; with none, reply with the usage
hint and return early; otherwise run the loop and compose the reply. Returns
the reply passed to `say` and the trace of collaborator calls made. -/
def handle_mention (b : Backend) (text user : String) : String × List BotCall :=
  if findallUrls text = [] then (usageHint user, [])
  else
    match processUrls b (findallUrls text) with
    | (processed, errors, calls) => (mentionResponse user processed errors, calls)

/-! ## Helper lemmas -/

theorem isPrefixOf_exists {l₁ l₂ : List Char} (h : l₁.isPrefixOf l₂ = true) :
    ∃ t, l₁ ++ t = l₂ := by
  induction l₁ generalizing l₂ with
  | nil => exact ⟨l₂, rfl⟩
  | cons a as ih =>
    cases l₂ with
    | nil => simp [List.isPrefixOf] at h
    | cons b bs =>
      rw [List.isPrefixOf_cons₂, Bool.and_eq_true, beq_iff_eq] at h
      obtain ⟨t, ht⟩ := ih h.2
      exact ⟨t, by rw [h.1, List.cons_append, ht]⟩

theorem isPrefixOf_append_self (l t : List Char) : l.isPrefixOf (l ++ t) = true := by
  induction l with
  | nil => simp [List.isPrefixOf]
  | cons a as ih => simp [List.isPrefixOf_cons₂, ih]

theorem pyContains_of_isPrefixOf {hay needle : List Char}
    (h : needle.isPrefixOf hay = true) : pyContains hay needle = true := by
  rw [pyContains.eq_def]
  simp [h]

theorem pyContains_cons {hay needle : List Char} (c : Char)
    (h : pyContains hay needle = true) : pyContains (c :: hay) needle = true := by
  rw [pyContains.eq_def]
  by_cases hp : needle.isPrefixOf (c :: hay) = true <;> simp [hp, h]

theorem pyContains_append_left (pre : List Char) {hay needle : List Char}
    (h : pyContains hay needle = true) : pyContains (pre ++ hay) needle = true := by
  induction pre with
  | nil => simpa using h
  | cons c cs ih => exact pyContains_cons c ih

theorem pyContains_self_append (needle t : List Char) :
    pyContains (needle ++ t) needle = true :=
  pyContains_of_isPrefixOf (isPrefixOf_append_self needle t)

theorem charLower_idem (c : Char) : charLower (charLower c) = charLower c := by
  cases hf : lowerTable.find? (fun p => p.1 == c) with
  | none =>
    simp only [charLower, hf]
  | some p =>
    have hmem : p ∈ lowerTable := List.mem_of_find?_eq_some hf
    simp only [charLower, hf]
    fin_cases hmem <;> decide

theorem strLower_idem (s : String) : strLower (strLower s) = strLower s := by
  unfold strLower
  simp only [List.map_map]
  congr 1
  exact List.map_congr_left (fun c _ => charLower_idem c)

theorem classifyDomain_eq_none_iff (l : List (String × String)) (domain : String) :
    classifyDomain l domain = none ↔
      ∀ p ∈ l, pyContains domain.data p.1.data = false := by
  induction l with
  | nil => simp [classifyDomain]
  | cons hd tl ih =>
    obtain ⟨d, pl⟩ := hd
    by_cases hm : pyContains domain.data d.data = true
    · simp [classifyDomain, hm]
    · simp only [Bool.not_eq_true] at hm
      simp [classifyDomain, hm, ih]

theorem classifyDomain_some_mem {l : List (String × String)} {domain pl : String}
    (h : classifyDomain l domain = some pl) :
    ∃ p ∈ l, pyContains domain.data p.1.data = true ∧ p.2 = pl := by
  induction l with
  | nil => simp [classifyDomain] at h
  | cons hd tl ih =>
    obtain ⟨d, p⟩ := hd
    by_cases hm : pyContains domain.data d.data = true
    · simp [classifyDomain, hm] at h
      exact ⟨(d, p), by simp, hm, h⟩
    · simp only [Bool.not_eq_true] at hm
      simp only [classifyDomain, hm, Bool.false_eq_true, if_false] at h
      obtain ⟨q, hq, hqm, hqp⟩ := ih h
      exact ⟨q, List.mem_cons_of_mem _ hq, hqm, hqp⟩

theorem classifyDomain_eq_some_of {l : List (String × String)} {domain pl : String}
    (hex : ∃ p ∈ l, pyContains domain.data p.1.data = true)
    (hall : ∀ p ∈ l, pyContains domain.data p.1.data = true → p.2 = pl) :
    classifyDomain l domain = some pl := by
  induction l with
  | nil => simp at hex
  | cons hd tl ih =>
    obtain ⟨d, p⟩ := hd
    by_cases hm : pyContains domain.data d.data = true
    · simp [classifyDomain, hm]
      exact hall (d, p) (by simp) hm
    · simp only [Bool.not_eq_true] at hm
      simp only [classifyDomain, hm, Bool.false_eq_true, if_false]
      apply ih
      · obtain ⟨q, hq, hqm⟩ := hex
        rcases List.mem_cons.1 hq with rfl | hqtl
        · simp [hqm] at hm
        · exact ⟨q, hqtl, hqm⟩
      · exact fun q hq hqm => hall q (List.mem_cons_of_mem _ hq) hqm

theorem takeWhile_http (t : List Char) :
    (('h' :: 't' :: 't' :: 'p' :: ':' :: '/' :: '/' :: t).takeWhile
      (fun c => !(c == ':'))) = ['h', 't', 't', 'p'] := rfl

theorem takeWhile_https (t : List Char) :
    (('h' :: 't' :: 't' :: 'p' :: 's' :: ':' :: '/' :: '/' :: t).takeWhile
      (fun c => !(c == ':'))) = ['h', 't', 't', 'p', 's'] := rfl

theorem hasScheme_of_startsWith {url : String}
    (h : pyStartsWith url "http://" = true ∨ pyStartsWith url "https://" = true) :
    hasScheme url = true := by
  rcases h with h | h
  · obtain ⟨t, ht⟩ := isPrefixOf_exists h
    have hd : url.data = 'h' :: 't' :: 't' :: 'p' :: ':' :: '/' :: '/' :: t := by
      rw [← ht]; rfl
    simp only [hasScheme, hd, takeWhile_http, List.headD_cons, Bool.and_eq_true]
    refine ⟨⟨⟨by decide, ?_⟩, by decide⟩, by decide⟩
    simp only [List.length_cons, List.length_nil, decide_eq_true_eq]
    omega
  · obtain ⟨t, ht⟩ := isPrefixOf_exists h
    have hd : url.data = 'h' :: 't' :: 't' :: 'p' :: 's' :: ':' :: '/' :: '/' :: t := by
      rw [← ht]; rfl
    simp only [hasScheme, hd, takeWhile_https, List.headD_cons, Bool.and_eq_true]
    refine ⟨⟨⟨by decide, ?_⟩, by decide⟩, by decide⟩
    simp only [List.length_cons, List.length_nil, decide_eq_true_eq]
    omega

theorem digitChar_isDigit (n : Nat) : (digitChar n).isDigit = true := by
  unfold digitChar
  split_ifs <;> rfl

theorem strftime_data (t : PyDateTime) :
    (strftimeTimestamp t).data =
      [digitChar (t.year / 1000), digitChar (t.year / 100), digitChar (t.year / 10),
       digitChar t.year, '-', digitChar (t.month / 10), digitChar t.month, '-',
       digitChar (t.day / 10), digitChar t.day, ' ',
       digitChar (t.hour / 10), digitChar t.hour, ':',
       digitChar (t.minute / 10), digitChar t.minute, ':',
       digitChar (t.second / 10), digitChar t.second] := rfl

theorem getA1E1_update_headers (sheet : List (List String)) :
    getA1E1 (updateA1E1 sheet HEADERS) = [HEADERS] := by
  cases sheet with
  | nil => rfl
  | cons r rest =>
    show getA1E1 ((HEADERS ++ r.drop 5) :: rest) = [HEADERS]
    have h5 : (HEADERS ++ r.drop 5).take 5 = HEADERS := by
      rw [List.take_append_eq_append_take]
      norm_num [HEADERS]
    simp only [getA1E1, h5]
    decide

theorem validate_parsed_some {u v p : String}
    (h : validate_parsed u = (some v, p)) : v = u := by
  unfold validate_parsed at h
  rcases hps : pyUrlsplitNetlocPath u with e | ⟨netloc, path⟩ <;>
    simp only [hps] at h
  · simp at h
  · rcases hc : classifyDomain SUPPORTED_PLATFORMS (strLower netloc) with _ | platform <;>
      simp only [hc] at h
    · simp at h
    · by_cases hp : path = "" ∨ path = "/"
      · simp [hp] at h
      · simp only [hp, if_false] at h
        have := congrArg Prod.fst h
        simpa using this.symm

/-! ## Claim theorems -/

/-- Claim C1: the Duplicate Checker returns true if and only if some row of
the queue read, skipping row 0 (the header row), has a column-B value exactly
equal (case-sensitive) to the input URL string; in particular, for a queue
containing a row whose column B is "https://instagram.com/foo", checking that
URL returns true and checking "https://instagram.com/bar" returns false. -/
theorem C1_duplicate_checker :
    (∀ (values : List (List String)) (url : String),
      check_duplicate_url (Except.ok values) url = true ↔
        ∃ row ∈ values.drop 1, 1 < row.length ∧ row.getD 1 "" = url) ∧
    check_duplicate_url (Except.ok demoQueue) "https://instagram.com/foo" = true ∧
    check_duplicate_url (Except.ok demoQueue) "https://instagram.com/bar" = false := by
  refine ⟨fun values url => ?_, by decide, by decide⟩
  by_cases hl : 1 < values.length
  · simp [check_duplicate_url, hl, List.any_eq_true, Bool.and_eq_true,
      decide_eq_true_eq, beq_iff_eq]
  · have hd : values.drop 1 = [] := List.drop_eq_nil_of_le (by omega)
    simp [check_duplicate_url, hl, hd]

/-- Claim C5: every row the Queue Appender constructs has exactly the fixed
column order timestamp, url, platform, requester, status, with the status
field always "Pending" and the timestamp formatted as YYYY-MM-DD HH:MM:SS. -/
theorem C5_queue_row_shape (sheet : List (List String)) (t : PyDateTime)
    (url platform user_name : String) :
    add_to_sheet sheet t url platform user_name =
      sheet ++ [row_data t url platform user_name] ∧
    row_data t url platform user_name =
      [strftimeTimestamp t, url, platform, user_name, "Pending"] ∧
    (row_data t url platform user_name).getD 4 "" = "Pending" ∧
    timestampShape (strftimeTimestamp t) := by
  refine ⟨rfl, rfl, rfl, rfl, rfl, rfl, rfl, rfl, rfl, ?_⟩
  intro i hi hni
  rw [strftime_data]
  interval_cases i <;> first
    | exact digitChar_isDigit _
    | exact absurd (by decide) hni

/-- Claim C7: a failed queue read makes the Duplicate Checker return false
(fail-open); the failure never reaches the caller — the checker is a total
function of the read result. -/
theorem C7_duplicate_check_fail_open (e : String) (url : String) :
    check_duplicate_url (Except.error e) url = false := rfl

/-- Claim C8: the Header Initializer is idempotent — a second call leaves the
sheet exactly as the first call left it, so two calls never produce two
header rows — and it never touches a sheet whose row 1 is non-empty,
whatever that row's content. -/
theorem C8_header_initializer_idempotent (sheet : List (List String)) :
    setup_sheet_headers (setup_sheet_headers sheet) = setup_sheet_headers sheet ∧
    (getA1E1 sheet ≠ [] → setup_sheet_headers sheet = sheet) := by
  constructor
  · by_cases h : getA1E1 sheet = []
    · have h1 : setup_sheet_headers sheet = updateA1E1 sheet HEADERS := by
        simp [setup_sheet_headers, h]
      rw [h1]
      simp [setup_sheet_headers, getA1E1_update_headers sheet]
    · simp [setup_sheet_headers, h]
  · intro h
    simp [setup_sheet_headers, h]

/-- Claim C9: a mention whose text contains no http(s) URL-pattern match is
answered with exactly the usage hint, the handler returns early, and no
Validator, Duplicate Checker or Appender call occurs (empty call trace). -/
theorem C9_mention_without_urls (b : Backend) (text user : String)
    (h : findallUrls text = []) :
    handle_mention b text user =
      ("<@" ++ user ++ "> Please include a social media URL in your message.\n" ++
       "Supported platforms: Instagram, TikTok, YouTube", []) := by
  simp [handle_mention, h, usageHint]

/-- Witness for C9 at a concrete mention text without URLs. -/
theorem C9_mention_without_urls_witness :
    findallUrls "please add some influencers" = [] ∧
    handle_mention ⟨fun _ => false, fun _ => true⟩ "please add some influencers" "U123" =
      ("<@" ++ "U123" ++ "> Please include a social media URL in your message.\n" ++
       "Supported platforms: Instagram, TikTok, YouTube", []) :=
  ⟨by decide,
   C9_mention_without_urls ⟨fun _ => false, fun _ => true⟩
     "please add some influencers" "U123" (by decide)⟩

/-- Claim C10: platform classification is case-insensitive in the host — the
classification step lowercases the netloc first, so any netloc classifies
exactly as its lowercase form does; concretely an INSTAGRAM.COM URL is
accepted as Instagram, like its lowercase twin. -/
theorem C10_host_case_insensitive :
    (∀ netloc : String, classifyNetloc netloc = classifyNetloc (strLower netloc)) ∧
    (validate_url "https://INSTAGRAM.COM/foo").2 = "Instagram" ∧
    (validate_url "https://INSTAGRAM.COM/foo").2 =
      (validate_url "https://instagram.com/foo").2 := by
  refine ⟨fun netloc => ?_, rfl, rfl⟩
  unfold classifyNetloc
  rw [strLower_idem]

/-- Claim C6: whenever the (scheme-prefixed) URL parses with a host that
classifies to a supported platform and a path that is empty or exactly "/",
the Validator fails with the invalid-path message, which names the detected
platform (the platform label occurs in the message). -/
theorem C6_invalid_path (url netloc path platform : String)
    (hparse : pyUrlsplitNetlocPath (ensureScheme url) = Except.ok (netloc, path))
    (hplat : classifyDomain SUPPORTED_PLATFORMS (strLower netloc) = some platform)
    (hpath : path = "" ∨ path = "/") :
    validate_url url =
      (none, "Invalid " ++ platform ++ " URL. Please provide a profile/channel URL.") ∧
    pyContains
      ("Invalid " ++ platform ++ " URL. Please provide a profile/channel URL.").data
      platform.data = true := by
  constructor
  · unfold validate_url validate_parsed
    simp only [hparse, hplat]
    rcases hpath with rfl | rfl <;> simp
  · have hdata :
        ("Invalid " ++ platform ++ " URL. Please provide a profile/channel URL.").data
          = "Invalid ".data ++
            (platform.data ++ " URL. Please provide a profile/channel URL.".data) := by
      simp
    rw [hdata]
    exact pyContains_append_left _ (pyContains_self_append _ _)

/-- Witness for C6: "instagram.com" gains a scheme, parses with an empty
path, and is rejected with the Instagram-naming message. -/
theorem C6_invalid_path_witness :
    validate_url "instagram.com" =
      (none, "Invalid " ++ "Instagram" ++ " URL. Please provide a profile/channel URL.") ∧
    pyContains
      ("Invalid " ++ "Instagram" ++ " URL. Please provide a profile/channel URL.").data
      "Instagram".data = true :=
  C6_invalid_path "instagram.com" "instagram.com" "" "Instagram"
    (by rfl) (by rfl) (Or.inl rfl)

/-- Counterexample to claim C2: the host "instagram.com.tiktok.com" contains
two of the fixed platform domain substrings that map to different platforms,
so "at most one can occur" is false; the Validator still classifies such a
URL, by insertion order (Instagram first). -/
theorem C2_counterexample :
    pyContains "instagram.com.tiktok.com".data "instagram.com".data = true ∧
    pyContains "instagram.com.tiktok.com".data "tiktok.com".data = true ∧
    ("instagram.com", "Instagram") ∈ SUPPORTED_PLATFORMS ∧
    ("tiktok.com", "TikTok") ∈ SUPPORTED_PLATFORMS ∧
    ("Instagram" : String) ≠ "TikTok" ∧
    validate_url "https://instagram.com.tiktok.com/x" =
      (some "https://instagram.com.tiktok.com/x", "Instagram") :=
  ⟨by decide, by decide, by decide, by decide, by decide, by rfl⟩

/-- Claim C2 as amended: the four platform domains are pairwise
non-substrings of one another, and the classification is independent of the
order in which the platform table is traversed for every host on which all
matching entries agree on the platform (hosts matching domains of two
different platforms do exist — see the counterexample — and for them
insertion order decides). -/
theorem C2_order_independence :
    (∀ p ∈ SUPPORTED_PLATFORMS, ∀ q ∈ SUPPORTED_PLATFORMS,
       p.1 ≠ q.1 → pyContains q.1.data p.1.data = false) ∧
    (∀ (l : List (String × String)) (domain : String),
       (∀ p, p ∈ l ↔ p ∈ SUPPORTED_PLATFORMS) →
       (∀ p q, p ∈ l → q ∈ l → pyContains domain.data p.1.data = true →
         pyContains domain.data q.1.data = true → p.2 = q.2) →
       classifyDomain l domain = classifyDomain SUPPORTED_PLATFORMS domain) := by
  constructor
  · decide
  · intro l domain hmem hsame
    by_cases hex : ∃ p ∈ SUPPORTED_PLATFORMS, pyContains domain.data p.1.data = true
    · obtain ⟨p0, hp0, hm0⟩ := hex
      have hp0l : p0 ∈ l := (hmem p0).2 hp0
      have hl : classifyDomain l domain = some p0.2 :=
        classifyDomain_eq_some_of ⟨p0, hp0l, hm0⟩
          (fun q hq hqm => hsame q p0 hq hp0l hqm hm0)
      have hs : classifyDomain SUPPORTED_PLATFORMS domain = some p0.2 :=
        classifyDomain_eq_some_of ⟨p0, hp0, hm0⟩
          (fun q hq hqm => hsame q p0 ((hmem q).2 hq) hp0l hqm hm0)
      rw [hl, hs]
    · push_neg at hex
      have h1 : classifyDomain SUPPORTED_PLATFORMS domain = none :=
        (classifyDomain_eq_none_iff _ _).2
          (fun p hp => by simpa using hex p hp)
      have h2 : classifyDomain l domain = none :=
        (classifyDomain_eq_none_iff _ _).2
          (fun p hp => by simpa using hex p ((hmem p).1 hp))
      rw [h1, h2]

/-- Counterexample to claim C3: "mailto:x@instagram.com/foo" already has a
URL scheme (mailto), yet the Validator prefixes "https://" anyway and then
accepts the modified string — so "an input that already has a scheme is
returned as-is" is false. -/
theorem C3_counterexample :
    hasScheme "mailto:x@instagram.com/foo" = true ∧
    validate_url "mailto:x@instagram.com/foo" =
      (some "https://mailto:x@instagram.com/foo", "Instagram") ∧
    ("https://mailto:x@instagram.com/foo" : String) ≠ "mailto:x@instagram.com/foo" :=
  ⟨by decide, by rfl, by decide⟩

/-- Claim C3 as amended: every input lacking a URL scheme is classified after
prefixing "https://" (the code actually prefixes whenever the input does not
start with "http://" or "https://", which covers every scheme-less string),
and on success the Validator returns the input unchanged except for that
possible prefix — as-is exactly when it starts with "http://" or
"https://". -/
theorem C3_scheme_prefixing (url : String) :
    (hasScheme url = false → validate_url url = validate_parsed ("https://" ++ url)) ∧
    (∀ v p, validate_url url = (some v, p) →
       v = (if pyStartsWith url "http://" || pyStartsWith url "https://" then url
            else "https://" ++ url)) := by
  constructor
  · intro h
    have h1 : pyStartsWith url "http://" = false := by
      cases hc : pyStartsWith url "http://"
      · rfl
      · rw [hasScheme_of_startsWith (Or.inl hc)] at h
        exact absurd h (by simp)
    have h2 : pyStartsWith url "https://" = false := by
      cases hc : pyStartsWith url "https://"
      · rfl
      · rw [hasScheme_of_startsWith (Or.inr hc)] at h
        exact absurd h (by simp)
    unfold validate_url ensureScheme
    rw [h1, h2]
    simp
  · intro v p hvp
    exact validate_parsed_some hvp

/-- Counterexample to claim C4: a successful lookup (ok = true) carrying no
usable field makes `get_user_name` return Python None, not the literal
"Unknown User". -/
theorem C4_counterexample :
    get_user_name (Except.ok ⟨true, ⟨none, none, none⟩⟩) = none ∧
    get_user_name (Except.ok ⟨true, ⟨none, none, none⟩⟩) ≠ some "Unknown User" :=
  ⟨rfl, by decide⟩

/-- Claim C4 as amended: the resolution prefers real name, then display name
(both skipped when absent or empty), then falls through to the raw username
field; "Unknown User" is returned exactly when the lookup raises or when it
returns ok = false — when ok = true and no field is usable the raw username
value (possibly None or empty) is returned instead. The lookup failure is
absorbed, never surfaced. -/
theorem C4_user_name_fallback_chain :
    (∀ e, get_user_name (Except.error e) = some "Unknown User") ∧
    (∀ r : UsersInfoResult, r.ok = false →
       get_user_name (Except.ok r) = some "Unknown User") ∧
    (∀ r : UsersInfoResult, r.ok = true → pyTruthy r.user.real_name = true →
       get_user_name (Except.ok r) = r.user.real_name) ∧
    (∀ r : UsersInfoResult, r.ok = true → pyTruthy r.user.real_name = false →
       pyTruthy (profileDisplay r.user) = true →
       get_user_name (Except.ok r) = profileDisplay r.user) ∧
    (∀ r : UsersInfoResult, r.ok = true → pyTruthy r.user.real_name = false →
       pyTruthy (profileDisplay r.user) = false →
       get_user_name (Except.ok r) = r.user.name) := by
  refine ⟨fun e => rfl, fun r h => ?_, fun r h h1 => ?_,
    fun r h h1 h2 => ?_, fun r h h1 h2 => ?_⟩
  · simp [get_user_name, h]
  · simp [get_user_name, h, pyOr, h1]
  · simp [get_user_name, h, pyOr, h1, h2]
  · simp [get_user_name, h, pyOr, h1, h2]

end SlackBot
